import Mathlib

/-!
Shallow embedding of `fs_mini` (src/include/fs_mini.hpp), a minimal C++
facade over POSIX file APIs, together with theorems settling the frozen
claims about it.

Modelling conventions:
* `errno` values, mode bits and open flags are `Nat`, with the concrete
  Linux/x86-64 values of the C headers the source derives them from.
* The process-global `errno` slot is threaded explicitly: every wrapper
  that in C++ reads `errno` after a failing call receives the value that
  slot holds at that moment as an argument (or from the state it threads).
* Fallible operations return `Except SystemError α`; a C++ `throw` is
  `Except.error`.
* The OS itself (results of `stat`/`lstat`/`read`/`write`/`getenv`) is a
  parameter of each operation, so theorems quantify over every possible
  OS behaviour.
-/

/-- Value of `ENOENT` ("No such file or directory") from `<errno.h>`. -/
def ENOENT : Nat := 2

/-- Value of `EACCES` ("Permission denied") from `<errno.h>`. -/
def EACCES : Nat := 13

/-- File-type mask `S_IFMT` from `<sys/stat.h>` (0xF000). -/
def S_IFMT : Nat := 0xF000

/-- Socket file type `S_IFSOCK`. -/
def S_IFSOCK : Nat := 0xC000

/-- Symbolic-link file type `S_IFLNK`. -/
def S_IFLNK : Nat := 0xA000

/-- Regular-file type `S_IFREG`. -/
def S_IFREG : Nat := 0x8000

/-- Block-device file type `S_IFBLK`. -/
def S_IFBLK : Nat := 0x6000

/-- Directory file type `S_IFDIR`. -/
def S_IFDIR : Nat := 0x4000

/-- Character-device file type `S_IFCHR`. -/
def S_IFCHR : Nat := 0x2000

/-- FIFO file type `S_IFIFO`. -/
def S_IFIFO : Nat := 0x1000

/-- Error category of `std::generic_category()`; the only category
`fs_mini` ever uses (fs_mini.hpp line 50). -/
inductive ErrorCategory where
  | generic
deriving DecidableEq, Repr

/-- Embedding of `std::system_error` as constructed by `fs_error::get`:
a numeric OS code, an error category and the `what` label supplied by
the failing operation. -/
structure SystemError where
  code : Nat
  category : ErrorCategory
  what : String
deriving DecidableEq, Repr

namespace fs_error

/-- Embeds `fs_error::get` (fs_mini.hpp lines 47-51): reads the
process-global `errno` (passed here explicitly as `eno`, the value the
slot holds when `get` runs) and wraps it, `std::generic_category()` and
the supplied label into a `std::system_error`. -/
def get (err : String) (eno : Nat) : SystemError :=
  { code := eno, category := ErrorCategory.generic, what := err }

end fs_error

/- Embedding of the `fs_omode` namespace (fs_mini.hpp lines 61-94):
open flags with the Linux `<fcntl.h>` values the source derives them
from. Only the members the claims reach are embedded. -/
namespace fs_omode

def readonly : Nat := 0
def writeonly : Nat := 1
def read_write : Nat := 2
def create : Nat := 0o100
def excl : Nat := 0o200
def truncate : Nat := 0o1000
def append : Nat := 0o2000

end fs_omode

/- Embedding of the `fs_perms` namespace (fs_mini.hpp lines 101-127):
permission bits with the Linux `<sys/stat.h>` values the source derives
them from. -/
namespace fs_perms

def none : Nat := 0
def owner_read : Nat := 0o400
def owner_write : Nat := 0o200
def owner_exec : Nat := 0o100
def owner_all : Nat := 0o700
def group_read : Nat := 0o40
def group_write : Nat := 0o20
def group_exec : Nat := 0o10
def group_all : Nat := 0o70
def others_read : Nat := 0o4
def others_write : Nat := 0o2
def others_exec : Nat := 0o1
def others_all : Nat := 0o7
def all : Nat := owner_all ||| group_all ||| others_all
def set_uid : Nat := 0o4000
def set_gid : Nat := 0o2000
def sticky_bit : Nat := 0o1000
def mask : Nat := owner_all ||| group_all ||| others_all ||| set_uid ||| set_gid ||| sticky_bit
def unknown : Nat := 0xffff

end fs_perms

/-- Result of one metadata fetch: the fields of `struct stat` the source
reads. A failed call carries the `errno` it sets. -/
structure Stat where
  st_mode : Nat
  st_size : Nat
deriving DecidableEq, Repr

/-- Outcome of `::stat`/`::lstat` on a path: either the metadata or the
`errno` the failing call left in the process-global slot. -/
abbrev StatOutcome := Except Nat Stat

/-- The OS metadata interface the path predicates call into: `stat`
follows symbolic links, `lstat` does not. A theorem quantifying over
`SysEnv` holds for every possible OS behaviour. -/
structure SysEnv where
  stat : String → StatOutcome
  lstat : String → StatOutcome

namespace fs

/-- Embeds `fs::is_file_exists` (fs_mini.hpp lines 233-247): `::stat`
the path (following symlinks); on failure with `ENOENT` return `false`,
on any other failure throw `fs_error::get("stat()")`; otherwise report
whether the masked type field is `S_IFREG`. -/
def is_file_exists (env : SysEnv) (path : String) : Except SystemError Bool :=
  match env.stat path with
  | Except.error eno =>
      if eno = ENOENT then Except.ok false
      else Except.error (fs_error.get "stat()" eno)
  | Except.ok st => Except.ok (decide ((st.st_mode &&& S_IFMT) = S_IFREG))

/-- Embeds `fs::is_directory_exists` (fs_mini.hpp lines 253-267): same
shape as `is_file_exists` with wanted type `S_IFDIR`. -/
def is_directory_exists (env : SysEnv) (path : String) : Except SystemError Bool :=
  match env.stat path with
  | Except.error eno =>
      if eno = ENOENT then Except.ok false
      else Except.error (fs_error.get "stat()" eno)
  | Except.ok st => Except.ok (decide ((st.st_mode &&& S_IFMT) = S_IFDIR))

/-- Embeds `fs::is_symlink_exists` (fs_mini.hpp lines 273-287): same
shape but via `::lstat` (not following symlinks) with wanted type
`S_IFLNK`, and label `"lstat()"` on the re-raised failure. -/
def is_symlink_exists (env : SysEnv) (path : String) : Except SystemError Bool :=
  match env.lstat path with
  | Except.error eno =>
      if eno = ENOENT then Except.ok false
      else Except.error (fs_error.get "lstat()" eno)
  | Except.ok st => Except.ok (decide ((st.st_mode &&& S_IFMT) = S_IFLNK))

/-- Embeds `fs::is_file_match` (fs_mini.hpp lines 441-449): `::lstat`
the path; any failure (nonexistence included) throws
`fs_error::get("lstat()")`; otherwise report whether the masked type
field equals `type`. -/
def is_file_match (env : SysEnv) (file : String) (type : Nat) : Except SystemError Bool :=
  match env.lstat file with
  | Except.error eno => Except.error (fs_error.get "lstat()" eno)
  | Except.ok st => Except.ok (decide ((st.st_mode &&& S_IFMT) = type))

/-- Embeds `fs::is_block_file` (fs_mini.hpp lines 455-457). -/
def is_block_file (env : SysEnv) (loc : String) : Except SystemError Bool :=
  is_file_match env loc S_IFBLK

/-- Embeds `fs::is_character_file` (fs_mini.hpp lines 463-465). -/
def is_character_file (env : SysEnv) (loc : String) : Except SystemError Bool :=
  is_file_match env loc S_IFCHR

/-- Embeds `fs::is_directory` (fs_mini.hpp lines 471-473). -/
def is_directory (env : SysEnv) (loc : String) : Except SystemError Bool :=
  is_file_match env loc S_IFDIR

/-- Embeds `fs::is_fifo` (fs_mini.hpp lines 479-481). -/
def is_fifo (env : SysEnv) (loc : String) : Except SystemError Bool :=
  is_file_match env loc S_IFIFO

/-- Embeds `fs::is_pipe` (fs_mini.hpp lines 489-491), an alias of
`is_fifo`. -/
def is_pipe (env : SysEnv) (loc : String) : Except SystemError Bool :=
  is_fifo env loc

/-- Embeds `fs::is_symlink` (fs_mini.hpp lines 497-499). -/
def is_symlink (env : SysEnv) (loc : String) : Except SystemError Bool :=
  is_file_match env loc S_IFLNK

/-- Embeds `fs::is_regular_file` (fs_mini.hpp lines 505-507). -/
def is_regular_file (env : SysEnv) (loc : String) : Except SystemError Bool :=
  is_file_match env loc S_IFREG

/-- Embeds `fs::is_socket` (fs_mini.hpp lines 513-515). -/
def is_socket (env : SysEnv) (loc : String) : Except SystemError Bool :=
  is_file_match env loc S_IFSOCK

/-- Embeds `fs::get_file_type` (fs_mini.hpp lines 521-530): `::lstat`
the path, throw `fs_error::get("lstat()")` on any failure, else return
`st_mode & S_IFMT`. -/
def get_file_type (env : SysEnv) (file : String) : Except SystemError Nat :=
  match env.lstat file with
  | Except.error eno => Except.error (fs_error.get "lstat()" eno)
  | Except.ok st => Except.ok (st.st_mode &&& S_IFMT)

end fs

/-- The OS descriptor-IO interface `read_object`/`write_object` call
into: given a descriptor and a byte count, the OS returns an `ssize_t`
result (`-1` signals failure) together with the value the `errno` slot
holds afterwards. Quantifying over `IoSys` covers every OS behaviour,
including short and zero-length transfers. -/
structure IoSys where
  readSys : Int → Nat → Int × Nat
  writeSys : Int → Nat → Int × Nat

namespace fs

/-- Embeds `fs::read_object` (fs_mini.hpp lines 174-182): call
`::read(fd, ptr, nbytes)`; throw `fs_error::get("read()")` exactly when
the result is `-1`, otherwise return the result unchanged. -/
def read_object (sys : IoSys) (fd : Int) (nbytes : Nat) : Except SystemError Int :=
  let sz := (sys.readSys fd nbytes).1
  if sz = -1 then Except.error (fs_error.get "read()" (sys.readSys fd nbytes).2)
  else Except.ok sz

/-- Embeds `fs::write_object` (fs_mini.hpp lines 189-197): call
`::write(fd, ptr, nbytes)`; throw `fs_error::get("write()")` exactly
when the result is `-1`, otherwise return the result unchanged. -/
def write_object (sys : IoSys) (fd : Int) (nbytes : Nat) : Except SystemError Int :=
  let sz := (sys.writeSys fd nbytes).1
  if sz = -1 then Except.error (fs_error.get "write()" (sys.writeSys fd nbytes).2)
  else Except.ok sz

end fs

/-- The process environment as `::getenv` sees it: a partial map from
variable names to values (`none` models a null return, i.e. an unset
variable). -/
abbrev EnvMap := String → Option String

namespace fs

/-- Embeds `fs::is_env_exists` (fs_mini.hpp lines 404-406):
`::getenv(key) != nullptr`. Total (`Bool`-valued): it can never throw. -/
def is_env_exists (env : EnvMap) (key : String) : Bool :=
  (env key).isSome

/-- Embeds `fs::read_env` (fs_mini.hpp lines 426-434): `::getenv(key)`;
on a null return throw `fs_error::get("getenv()")` (with whatever value
the `errno` slot holds, passed as `eno`; `getenv` itself sets no error),
else return the value. -/
def read_env (env : EnvMap) (key : String) (eno : Nat) : Except SystemError String :=
  match env key with
  | none => Except.error (fs_error.get "getenv()" eno)
  | some v => Except.ok v

end fs

/-- State of the filesystem plus the process-global `errno` slot, as
`copy_file` sees and mutates them: `files` maps each existing path to
its byte content. -/
structure FsState where
  files : String → Option (List Nat)
  errno : Nat

/-- Flags `copy_file` opens its destination with (fs_mini.hpp lines
299-300): `fs_omode::writeonly | fs_omode::create`. -/
def copy_dest_flags : Nat := fs_omode.writeonly ||| fs_omode.create

namespace fs

/-- Embeds the `do { copy_file_range; } while (len > 0)` loop of
`fs::copy_file` (fs_mini.hpp lines 312-317) for a kernel that moves at
most `chunk` bytes per call: each iteration copies
`min len chunk (src.length - srcOff)` bytes of `src` into `dst` in
place at `dstOff` and subtracts that amount from `len`. `fuel` bounds
the iteration count (the C loop spins forever if a call moves 0 bytes
while `len > 0`). In the source as written this loop is unreachable:
`copy_file` throws at the inverted `fstat` check before reaching it. -/
def copy_loop (chunk : Nat) (src : List Nat) :
    Nat → Nat → List Nat → Nat → Nat → Option (List Nat)
  | 0, _, _, _, _ => none
  | _ + 1, _, dst, _, 0 => some dst
  | fuel + 1, srcOff, dst, dstOff, len =>
      let n := min (min len chunk) (src.length - srcOff)
      let moved := (src.drop srcOff).take n
      let dst' := (dst.take dstOff) ++ moved ++ (dst.drop (dstOff + n))
      let len' := len - n
      if len' > 0 then copy_loop chunk src fuel (srcOff + n) dst' (dstOff + n) len'
      else some dst'

/-- Embeds `fs::copy_file` (fs_mini.hpp lines 293-321), returning the
thrown error (if any) together with the filesystem state reflecting the
side effects performed before the throw:
1. open the source read-only - fails (here: with `ENOENT`) when it does
   not exist, raising `fs_error::get("open()")` (line 297);
2. open the destination with `writeonly | create` - creates it empty
   when missing, keeps its existing content otherwise (no `truncate`
   bit), and succeeds;
3. `::fstat(rfd, &st)` on the freshly opened source descriptor, which
   succeeds (returns `0`). The source tests `!= -1` (line 306), so this
   success branch throws `fs_error::get("fstat()")` - with the stale
   `errno`, since the successful calls before it set none - and the
   transfer loop of lines 309-320 (`copy_loop` above) is never
   reached. -/
def copy_file (s : FsState) (target dest : String) : Except SystemError Unit × FsState :=
  match s.files target with
  | none =>
      let s1 : FsState := { s with errno := ENOENT }
      (Except.error (fs_error.get "open()" s1.errno), s1)
  | some _ =>
      let s1 : FsState :=
        { s with files := fun p => if p = dest then some ((s.files dest).getD []) else s.files p }
      (Except.error (fs_error.get "fstat()" s1.errno), s1)

end fs

/-! Concrete OS behaviours used as witnesses and failing inputs. -/

/-- Filesystem with one empty source file and no destination. -/
def wEmptySrc : FsState :=
  { files := fun p => if p = "src" then some [] else none, errno := 0 }

/-- Filesystem with a one-byte source file and no destination. -/
def wOneByteSrc : FsState :=
  { files := fun p => if p = "src" then some [65] else none, errno := 0 }

/-- Filesystem with a five-byte source file and no destination. -/
def wBigSrc : FsState :=
  { files := fun p => if p = "src" then some [1, 2, 3, 4, 5] else none, errno := 0 }

/-- Filesystem with a one-byte source `"s"` and a pre-existing
three-byte destination `"d"`. -/
def wLongerDest : FsState :=
  { files := fun p =>
      if p = "s" then some [9] else if p = "d" then some [1, 2, 3] else none,
    errno := 0 }

/-- OS on which every metadata fetch fails with `EACCES`. -/
def envFail : SysEnv :=
  { stat := fun _ => Except.error EACCES, lstat := fun _ => Except.error EACCES }

/-- OS on which no path exists: every metadata fetch fails `ENOENT`. -/
def envMissing : SysEnv :=
  { stat := fun _ => Except.error ENOENT, lstat := fun _ => Except.error ENOENT }

/-- OS on which every path is a regular file with mode 0644 and size 3. -/
def envReg : SysEnv :=
  { stat := fun _ => Except.ok (Stat.mk (S_IFREG ||| 0o644) 3),
    lstat := fun _ => Except.ok (Stat.mk (S_IFREG ||| 0o644) 3) }

/-- Descriptor IO on which every read and write transfers 0 bytes. -/
def sysShort : IoSys :=
  { readSys := fun _ _ => (0, 0), writeSys := fun _ _ => (0, 0) }

/-- Process environment holding only `HOME=/root`. -/
def envHome : EnvMap :=
  fun k => if k = "HOME" then some "/root" else none

/-- Claim C1 (code bug): the claim says `copy(source, dest)` terminates
normally with a byte-identical destination for source sizes 0, 1 and
larger than one chunk. In the code, line 306 tests the successful
`::fstat` with `!= -1`, so after both opens succeed `copy_file` always
throws the `"fstat()"` error before transferring anything: here for
sources of sizes 0, 1 and 5. -/
theorem copy_file_never_completes :
    (fs.copy_file wEmptySrc "src" "dst").1 = Except.error (fs_error.get "fstat()" 0) ∧
    (fs.copy_file wOneByteSrc "src" "dst").1 = Except.error (fs_error.get "fstat()" 0) ∧
    (fs.copy_file wBigSrc "src" "dst").1 = Except.error (fs_error.get "fstat()" 0) :=
  ⟨rfl, rfl, rfl⟩

/-- Claim C2 (code bug): the claim says the size-determining stat
raises `Error` if and only if it fails. In the code the test is
inverted (`!= -1`, fs_mini.hpp line 306): whenever the source open
succeeds, the following `::fstat` on the open descriptor succeeds, and
precisely that success makes `copy_file` throw the `"fstat()"` error
(with the stale `errno`), so the transfer loop never runs. -/
theorem copy_file_throws_on_fstat_success (s : FsState) (target dest : String)
    (src : List Nat) (h : s.files target = some src) :
    (fs.copy_file s target dest).1 = Except.error (fs_error.get "fstat()" s.errno) := by
  simp [fs.copy_file, h]

/-- Witness for `copy_file_throws_on_fstat_success` at a concrete
filesystem. -/
theorem copy_file_throws_on_fstat_success_witness :
    (fs.copy_file wOneByteSrc "src" "dst").1 = Except.error (fs_error.get "fstat()" 0) :=
  copy_file_throws_on_fstat_success wOneByteSrc "src" "dst" [65] rfl

/-- Claim C10 (code bug): the claim says the destination, opened with
`create` and without `truncate`, is overwritten in place from offset
zero so that the old tail survives a completed transfer. The open
flags are indeed `writeonly | create` with no `truncate` bit, but the
inverted `fstat` test (fs_mini.hpp line 306) makes `copy_file` throw
before any transfer: no transfer ever completes and an existing
destination's content is left entirely unchanged, never overwritten
from offset zero. -/
theorem copy_file_dest_flags_and_no_transfer :
    copy_dest_flags &&& fs_omode.truncate = 0 ∧
    copy_dest_flags &&& fs_omode.create ≠ 0 ∧
    (fs.copy_file wLongerDest "s" "d").1 = Except.error (fs_error.get "fstat()" 0) ∧
    (fs.copy_file wLongerDest "s" "d").2.files "d" = some [1, 2, 3] :=
  ⟨by decide, by decide, rfl, rfl⟩

/-- Claim C3: every failing operation raises the single error kind
built by `fs_error::get`, which carries exactly the supplied operation
label, the `errno` value at construction time, and the generic OS
category; each wrapper calls the OS once and translates its failure
unchanged - no retry, no suppression, no reclassification. Stated for
the constructor itself and for each embedded failing path. -/
theorem error_translation_exact :
    (∀ lbl eno, (fs_error.get lbl eno).what = lbl ∧ (fs_error.get lbl eno).code = eno ∧
      (fs_error.get lbl eno).category = ErrorCategory.generic) ∧
    (∀ env p eno, env.stat p = Except.error eno → eno ≠ ENOENT →
      fs.is_file_exists env p = Except.error (fs_error.get "stat()" eno)) ∧
    (∀ env p t eno, env.lstat p = Except.error eno →
      fs.is_file_match env p t = Except.error (fs_error.get "lstat()" eno)) ∧
    (∀ sys fd n, (sys.readSys fd n).1 = -1 →
      fs.read_object sys fd n = Except.error (fs_error.get "read()" (sys.readSys fd n).2)) ∧
    (∀ sys fd n, (sys.writeSys fd n).1 = -1 →
      fs.write_object sys fd n = Except.error (fs_error.get "write()" (sys.writeSys fd n).2)) ∧
    (∀ env key eno, env key = none →
      fs.read_env env key eno = Except.error (fs_error.get "getenv()" eno)) := by
  refine ⟨fun lbl eno => ⟨rfl, rfl, rfl⟩, ?_, ?_, ?_, ?_, ?_⟩
  · intro env p eno h hne
    simp [fs.is_file_exists, h, hne]
  · intro env p t eno h
    simp [fs.is_file_match, h]
  · intro sys fd n h
    simp [fs.read_object, h]
  · intro sys fd n h
    simp [fs.write_object, h]
  · intro env key eno h
    simp [fs.read_env, h]

/-- Witness for `error_translation_exact`: concrete failures carry
exactly the label, code and generic category. -/
theorem error_translation_exact_witness :
    fs.is_file_exists envFail "p" = Except.error (fs_error.get "stat()" EACCES) ∧
    fs.is_file_match envFail "p" S_IFREG = Except.error (fs_error.get "lstat()" EACCES) ∧
    (fs_error.get "open()" 2).what = "open()" :=
  ⟨error_translation_exact.2.1 envFail "p" EACCES rfl (by decide),
   error_translation_exact.2.2.1 envFail "p" S_IFREG EACCES rfl,
   (error_translation_exact.1 "open()" 2).1⟩

/-- Claim C4: the `exists_as`-style predicates return `false` on
`ENOENT`, re-raise any other stat failure as the translated error, and
otherwise compare the masked type field against the wanted type; the
regular-file and directory checks go through `SysEnv.stat` (following
symlinks) while the symlink check goes through `SysEnv.lstat` (not
following). -/
theorem exists_predicates_spec (env : SysEnv) (p : String) :
    (env.stat p = Except.error ENOENT →
      fs.is_file_exists env p = Except.ok false ∧
      fs.is_directory_exists env p = Except.ok false) ∧
    (env.lstat p = Except.error ENOENT → fs.is_symlink_exists env p = Except.ok false) ∧
    (∀ eno, env.stat p = Except.error eno → eno ≠ ENOENT →
      fs.is_file_exists env p = Except.error (fs_error.get "stat()" eno) ∧
      fs.is_directory_exists env p = Except.error (fs_error.get "stat()" eno)) ∧
    (∀ eno, env.lstat p = Except.error eno → eno ≠ ENOENT →
      fs.is_symlink_exists env p = Except.error (fs_error.get "lstat()" eno)) ∧
    (∀ st, env.stat p = Except.ok st →
      fs.is_file_exists env p = Except.ok (decide ((st.st_mode &&& S_IFMT) = S_IFREG)) ∧
      fs.is_directory_exists env p = Except.ok (decide ((st.st_mode &&& S_IFMT) = S_IFDIR))) ∧
    (∀ st, env.lstat p = Except.ok st →
      fs.is_symlink_exists env p = Except.ok (decide ((st.st_mode &&& S_IFMT) = S_IFLNK))) := by
  refine ⟨?_, ?_, ?_, ?_, ?_, ?_⟩
  · intro h
    exact ⟨by simp [fs.is_file_exists, h], by simp [fs.is_directory_exists, h]⟩
  · intro h
    simp [fs.is_symlink_exists, h]
  · intro eno h hne
    exact ⟨by simp [fs.is_file_exists, h, hne], by simp [fs.is_directory_exists, h, hne]⟩
  · intro eno h hne
    simp [fs.is_symlink_exists, h, hne]
  · intro st h
    exact ⟨by simp [fs.is_file_exists, h], by simp [fs.is_directory_exists, h]⟩
  · intro st h
    simp [fs.is_symlink_exists, h]

/-- Witness for `exists_predicates_spec`: a missing path yields `false`
without error, and a regular file yields `true`. -/
theorem exists_predicates_spec_witness :
    fs.is_file_exists envMissing "q" = Except.ok false ∧
    fs.is_symlink_exists envMissing "q" = Except.ok false ∧
    fs.is_file_exists envReg "q" = Except.ok true := by
  refine ⟨((exists_predicates_spec envMissing "q").1 rfl).1,
    (exists_predicates_spec envMissing "q").2.1 rfl, ?_⟩
  have h := ((exists_predicates_spec envReg "q").2.2.2.2.1 (Stat.mk (S_IFREG ||| 0o644) 3) rfl).1
  simpa using h

/-- Claim C5: every convenience type predicate built on
`fs::is_file_match` re-raises any `::lstat` failure - nonexistence
(`ENOENT`) included - as the translated `"lstat()"` error instead of
returning `false`. -/
theorem type_predicates_raise_on_stat_failure (env : SysEnv) (loc : String) (eno : Nat)
    (h : env.lstat loc = Except.error eno) :
    fs.is_block_file env loc = Except.error (fs_error.get "lstat()" eno) ∧
    fs.is_character_file env loc = Except.error (fs_error.get "lstat()" eno) ∧
    fs.is_directory env loc = Except.error (fs_error.get "lstat()" eno) ∧
    fs.is_fifo env loc = Except.error (fs_error.get "lstat()" eno) ∧
    fs.is_pipe env loc = Except.error (fs_error.get "lstat()" eno) ∧
    fs.is_symlink env loc = Except.error (fs_error.get "lstat()" eno) ∧
    fs.is_regular_file env loc = Except.error (fs_error.get "lstat()" eno) ∧
    fs.is_socket env loc = Except.error (fs_error.get "lstat()" eno) := by
  simp [fs.is_block_file, fs.is_character_file, fs.is_directory, fs.is_fifo, fs.is_pipe,
    fs.is_symlink, fs.is_regular_file, fs.is_socket, fs.is_file_match, h]

/-- Witness for `type_predicates_raise_on_stat_failure`: on a
nonexistent path the predicates raise rather than return `false`. -/
theorem type_predicates_raise_witness :
    fs.is_block_file envMissing "q" = Except.error (fs_error.get "lstat()" ENOENT) ∧
    fs.is_regular_file envMissing "q" = Except.error (fs_error.get "lstat()" ENOENT) :=
  ⟨(type_predicates_raise_on_stat_failure envMissing "q" ENOENT rfl).1,
   (type_predicates_raise_on_stat_failure envMissing "q" ENOENT rfl).2.2.2.2.2.2.1⟩

/-- Claim C6: for every path whose `::lstat` succeeds, each single-type
predicate holds exactly when `get_file_type` returns that predicate's
masked constant; any two matching types coincide (so at most one
predicate is true), and the seven masked constants are pairwise
distinct (so the object's own predicate is true and all others are
false). -/
theorem type_predicates_agree_with_file_type (env : SysEnv) (p : String) (st : Stat)
    (h : env.lstat p = Except.ok st) :
    (fs.is_block_file env p = Except.ok true ↔ fs.get_file_type env p = Except.ok S_IFBLK) ∧
    (fs.is_character_file env p = Except.ok true ↔ fs.get_file_type env p = Except.ok S_IFCHR) ∧
    (fs.is_directory env p = Except.ok true ↔ fs.get_file_type env p = Except.ok S_IFDIR) ∧
    (fs.is_fifo env p = Except.ok true ↔ fs.get_file_type env p = Except.ok S_IFIFO) ∧
    (fs.is_pipe env p = Except.ok true ↔ fs.get_file_type env p = Except.ok S_IFIFO) ∧
    (fs.is_symlink env p = Except.ok true ↔ fs.get_file_type env p = Except.ok S_IFLNK) ∧
    (fs.is_regular_file env p = Except.ok true ↔ fs.get_file_type env p = Except.ok S_IFREG) ∧
    (fs.is_socket env p = Except.ok true ↔ fs.get_file_type env p = Except.ok S_IFSOCK) ∧
    (∀ t1 t2, fs.is_file_match env p t1 = Except.ok true →
      fs.is_file_match env p t2 = Except.ok true → t1 = t2) ∧
    ([S_IFBLK, S_IFCHR, S_IFDIR, S_IFIFO, S_IFLNK, S_IFREG, S_IFSOCK] : List Nat).Nodup := by
  refine ⟨?_, ?_, ?_, ?_, ?_, ?_, ?_, ?_, ?_, by decide⟩
  all_goals
    first
    | (intro t1 t2 h1 h2
       simp [fs.is_file_match, h] at h1 h2
       rw [← h1, ← h2])
    | simp [fs.is_block_file, fs.is_character_file, fs.is_directory, fs.is_fifo, fs.is_pipe,
        fs.is_symlink, fs.is_regular_file, fs.is_socket, fs.is_file_match, fs.get_file_type, h]

/-- Witness for `type_predicates_agree_with_file_type` on a regular
file. -/
theorem type_predicates_agree_witness :
    fs.is_regular_file envReg "q" = Except.ok true ↔
      fs.get_file_type envReg "q" = Except.ok S_IFREG :=
  (type_predicates_agree_with_file_type envReg "q" (Stat.mk (S_IFREG ||| 0o644) 3)
    rfl).2.2.2.2.2.2.1

/-- Claim C7: `read_object` and `write_object` return whatever count
the OS call reports - short counts and zero included - as a non-error
result, and raise the translated error exactly when the call returns
the `-1` sentinel. -/
theorem read_write_partial_completion (sys : IoSys) (fd : Int) (n : Nat) :
    ((sys.readSys fd n).1 ≠ -1 →
      fs.read_object sys fd n = Except.ok (sys.readSys fd n).1) ∧
    ((sys.readSys fd n).1 = -1 →
      fs.read_object sys fd n = Except.error (fs_error.get "read()" (sys.readSys fd n).2)) ∧
    ((sys.writeSys fd n).1 ≠ -1 →
      fs.write_object sys fd n = Except.ok (sys.writeSys fd n).1) ∧
    ((sys.writeSys fd n).1 = -1 →
      fs.write_object sys fd n = Except.error (fs_error.get "write()" (sys.writeSys fd n).2)) := by
  refine ⟨fun h => ?_, fun h => ?_, fun h => ?_, fun h => ?_⟩ <;>
    simp [fs.read_object, fs.write_object, h]

/-- Witness for `read_write_partial_completion`: a zero-byte transfer
against a 100-byte request is an ordinary `ok 0`, not an error. -/
theorem read_write_partial_completion_witness :
    fs.read_object sysShort 3 100 = Except.ok 0 ∧
    fs.write_object sysShort 3 100 = Except.ok 0 :=
  ⟨(read_write_partial_completion sysShort 3 100).1 (by decide),
   (read_write_partial_completion sysShort 3 100).2.2.1 (by decide)⟩

/-- Claim C8: `fs_perms::mask` is exactly the bitwise OR of the nine
owner/group/other read-write-execute bits with set-uid, set-gid and
sticky (no other bit), and the `fs_perms::unknown` sentinel fails the
mask test. -/
theorem perms_mask_exact :
    fs_perms.mask =
      (fs_perms.owner_read ||| fs_perms.owner_write ||| fs_perms.owner_exec |||
       fs_perms.group_read ||| fs_perms.group_write ||| fs_perms.group_exec |||
       fs_perms.others_read ||| fs_perms.others_write ||| fs_perms.others_exec |||
       fs_perms.set_uid ||| fs_perms.set_gid ||| fs_perms.sticky_bit) ∧
    fs_perms.unknown &&& fs_perms.mask ≠ fs_perms.unknown := by
  constructor
  · decide
  · decide

/-- Claim C9: `is_env_exists` is total (it returns a plain `Bool`, so
it can never raise) and is `false` exactly on an unset variable, on
which `read_env` raises the translated `"getenv()"` error; on a set
variable `is_env_exists` is `true` and `read_env` returns the value. -/
theorem env_exists_vs_read_env (env : EnvMap) (key : String) (eno : Nat) :
    (fs.is_env_exists env key = false ↔ env key = none) ∧
    (env key = none →
      fs.read_env env key eno = Except.error (fs_error.get "getenv()" eno)) ∧
    (∀ v, env key = some v →
      fs.is_env_exists env key = true ∧ fs.read_env env key eno = Except.ok v) := by
  refine ⟨?_, fun h => by simp [fs.read_env, h], fun v h => ?_⟩
  · cases hk : env key <;> simp [fs.is_env_exists, hk]
  · exact ⟨by simp [fs.is_env_exists, h], by simp [fs.read_env, h]⟩

/-- Witness for `env_exists_vs_read_env` on an environment holding only
`HOME`. -/
theorem env_exists_vs_read_env_witness :
    fs.read_env envHome "SHELL" 0 = Except.error (fs_error.get "getenv()" 0) ∧
    fs.is_env_exists envHome "HOME" = true ∧
    fs.read_env envHome "HOME" 0 = Except.ok "/root" :=
  ⟨(env_exists_vs_read_env envHome "SHELL" 0).2.1 rfl,
   (env_exists_vs_read_env envHome "HOME" 0).2.2 "/root" rfl⟩
